import Mathlib

/-!
Verification of the data-visualization repository (eda_dashboard.py,
dash_plotter.py, simple_plotter.py).

The embedding models a pandas DataFrame as an ordered list of columns.
Every cell is an `Option ℚ`: `none` models a null/NaN entry, `some q`
models a concrete (finite) numeric value.  For non-numeric columns only
the dtype and the row count matter to the verified functions, so their
cells are also carried as `Option ℚ` without loss.

Correlation cells are represented symbolically: a pair `(num, denSq) : ℚ × ℚ`
denotes the real value `num / Real.sqrt denSq`.  This is exact for the
source's Pearson formula `r = (n·Σxy − Σx·Σy) / sqrt((n·Σx² − (Σx)²)·(n·Σy² − (Σy)²))`
(the same algebraic expression `np.corrcoef` evaluates): the diagonal 1.0 is
`(1, 1)`, the literal 0.0 stored in the degenerate branches is `(0, 1)`, and
the float computation yields NaN exactly when the represented `denSq` is 0,
so "the stored cell is never NaN" is "the second component is never 0".
-/

namespace DataViz

/-- Declared pandas dtype of a column.  `number` covers the pandas numeric
dtypes selected by `select_dtypes(include=["number"])` (int/float); `boolean`
is the pandas bool dtype (matched by `select_dtypes(["object","category","bool"])`
but also by `pd.api.types.is_numeric_dtype`); `datetime` stands for the
remaining dtypes that none of the selectors match. -/
inductive Dtype where
  | number
  | obj
  | category
  | boolean
  | datetime
deriving DecidableEq, Repr

/-- One DataFrame column: a name, a declared dtype and the cell values
(`none` = null/NaN). -/
structure Column where
  name : String
  dtype : Dtype
  values : List (Option ℚ)
deriving DecidableEq, Repr

/-- Placeholder column used as the `getD` default when indexing column lists. -/
def emptyColumn : Column := ⟨"", Dtype.number, []⟩

/-- Columns selected by `df.select_dtypes(include=["number"])`, in table order. -/
def numericColumns (df : List Column) : List Column :=
  df.filter (fun c => c.dtype = Dtype.number)

/-- Columns selected by `df.select_dtypes(include=["object", "category", "bool"])`. -/
def isCatDtype (d : Dtype) : Bool :=
  d = Dtype.obj || d = Dtype.category || d = Dtype.boolean

/-- Number of distinct non-null values of a column: `s.nunique(dropna=True)`. -/
def nunique (c : Column) : Nat :=
  (c.values.filterMap id).dedup.length

/-- First column with the given name, modelling the pandas lookup `df[col]`
(column names are unique in the tables this repository manipulates). -/
def lookupCol (df : List Column) (n : String) : Option Column :=
  df.find? (fun c => c.name = n)

/-- Distinct non-null count of the column named `n` (0 when absent). -/
def nuniqueName (df : List Column) (n : String) : Nat :=
  match lookupCol df n with
  | some c => nunique c
  | none => 0

/-- Python list dedup comprehension
`[c for i, c in enumerate(l) if c not in l[:i]]`: keep the first occurrence
of each element.  `seen` accumulates the elements already kept, which is
exactly the set of elements occurring in the processed prefix. -/
def dedupeAux (seen : List String) : List String → List String
  | [] => []
  | x :: xs => if x ∈ seen then dedupeAux seen xs else x :: dedupeAux (x :: seen) xs

/-- Dedup keeping first occurrences, as in the source's comprehension. -/
def dedupe (l : List String) : List String := dedupeAux [] l

/-- Column-role inference from `infer_column_types` (identical in
eda_dashboard.py and dash_plotter.py): numeric = pandas numeric dtypes;
categorical = object/category/bool dtype columns, followed by the numeric
columns whose distinct non-null count is at most `cat_threshold`, deduped. -/
def infer_column_types (df : List Column) (cat_threshold : Nat) :
    List String × List String :=
  let numeric := (numericColumns df).map Column.name
  let categorical := (df.filter (fun c => isCatDtype c.dtype)).map Column.name
  let categorical :=
    categorical ++ numeric.filter (fun n => nuniqueName df n ≤ cat_threshold)
  (numeric, dedupe categorical)

/-- Test for `pd.api.types.is_numeric_dtype` as used by simple_plotter.py:
true for the numeric dtypes and for the bool dtype. -/
def is_numeric_series (c : Column) : Bool :=
  c.dtype = Dtype.number || c.dtype = Dtype.boolean

/-- Maximum of the non-null values, modelling `arr.max()` of pandas
(NaN — here `none` — when there is no non-null value). -/
def seriesMax (l : List (Option ℚ)) : Option ℚ :=
  (l.filterMap id).max?

/-- Minimum of the non-null values, modelling `arr.min()` of pandas. -/
def seriesMin (l : List (Option ℚ)) : Option ℚ :=
  (l.filterMap id).min?

/-- Size transform of simple_plotter.py (`size_transform`): a non-numeric
column gives the constant size 10 on every row; a numeric column is rescaled
by `5 + (v − min) / (max − min) * 20`, unless the range is 0 or NaN, in which
case every row again gets the constant 10.  Arithmetic on a null cell keeps
it null (NaN propagation). -/
def size_transform (c : Column) : List (Option ℚ) :=
  if ¬ is_numeric_series c then
    c.values.map (fun _ => some 10)
  else
    match seriesMax c.values, seriesMin c.values with
    | some mx, some mn =>
        if mx - mn = 0 then c.values.map (fun _ => some 10)
        else c.values.map (Option.map (fun v => 5 + ((v - mn) / (mx - mn)) * 20))
    | _, _ => c.values.map (fun _ => some 10)

/-- One updatemenu button of simple_plotter.py: the column label and the
transformed data payload embedded in its `args`. -/
structure Button where
  label : String
  arr : List (Option ℚ)
deriving DecidableEq, Repr

/-- Builder loop of `make_buttons_for_attr` in simple_plotter.py: one button
per column of the table (`for col in cols`), carrying the transformed values. -/
def make_buttons_for_attr (df : List Column) (transform : Column → List (Option ℚ)) :
    List Button :=
  df.map (fun c => ⟨c.name, transform c⟩)

/-- Eligible dropdown option lists per chart kind, in the source's local
variable order `x_opts, y_opts, size_opts, color_opts`
(from `update_column_options` in dash_plotter.py and the identical
`eda_update_plot_options` in eda_dashboard.py). -/
structure EligibleOpts where
  x_opts : List String
  y_opts : List String
  size_opts : List String
  color_opts : List String
deriving DecidableEq, Repr

/-- Branch structure of `update_column_options` choosing the per-dimension
eligible columns for a chart kind. -/
def eligible_options (df : List Column) (plot_type : String) : EligibleOpts :=
  let numeric := (infer_column_types df 20).1
  let categorical := (infer_column_types df 20).2
  let all_options := df.map Column.name
  if plot_type = "scatter" then
    ⟨numeric, numeric, numeric, all_options⟩
  else if plot_type = "box" ∨ plot_type = "violin" then
    ⟨categorical, numeric, [], all_options⟩
  else if plot_type = "bar" then
    ⟨categorical, numeric, [], all_options⟩
  else if plot_type = "hist" then
    ⟨numeric ++ categorical, [], [], all_options⟩
  else
    ⟨all_options, all_options, all_options, all_options⟩

/-- Helper `first_or_none` of the source: first option value or None. -/
def first_or_none (opts : List String) : Option String := opts.head?

/-- Full output of the `update_column_options` callback: the four option
lists and the four recomputed selection values. -/
structure PlotSelState where
  x_opts : List String
  y_opts : List String
  color_opts : List String
  size_opts : List String
  x_val : Option String
  y_val : Option String
  color_val : Option String
  size_val : Option String
deriving DecidableEq, Repr

/-- Callback `update_column_options` (dash_plotter.py) and
`eda_update_plot_options` (eda_dashboard.py): recompute the option lists and
return `first_or_none(x_opts), first_or_none(y_opts), None, None` as the new
x, y, color, size selections. -/
def update_column_options (df : List Column) (plot_type : String) : PlotSelState :=
  let e := eligible_options df plot_type
  ⟨e.x_opts, e.y_opts, e.color_opts, e.size_opts,
    first_or_none e.x_opts, first_or_none e.y_opts, none, none⟩

/-- Pairwise deletion mask of `create_correlation_matrix`: the row pairs where
both columns are non-null (`valid_mask = a.notna() & b.notna()` followed by the
two masked selections, kept as pairs to preserve alignment). -/
def validPairs (a b : List (Option ℚ)) : List (ℚ × ℚ) :=
  (List.zip a b).filterMap (fun p =>
    match p with
    | (some x, some y) => some (x, y)
    | _ => none)

/-- Numerator of the Pearson correlation over two aligned samples, after
clearing denominators: `n·Σxy − Σx·Σy` (the sign-carrying part of the value
`np.corrcoef(x, y)[0, 1]` computes). -/
def pearsonNum (xs ys : List ℚ) : ℚ :=
  (xs.length : ℚ) * (List.zipWith (fun a b => a * b) xs ys).sum - xs.sum * ys.sum

/-- Scaled variance term `n·Σx² − (Σx)²` of one sample. -/
def varTerm (xs : List ℚ) : ℚ :=
  (xs.length : ℚ) * (xs.map (fun a => a * a)).sum - xs.sum * xs.sum

/-- Squared denominator of the Pearson correlation: the float result is
`pearsonNum / sqrt pearsonDenSq`, NaN exactly when this term is 0. -/
def pearsonDenSq (xs ys : List ℚ) : ℚ :=
  varTerm xs * varTerm ys

/-- Average rank (1-based, ties share the mean of their positions) of value
`v` within sample `l`, as computed by `scipy.stats.rankdata` inside
`spearmanr`. -/
def rankOf (l : List ℚ) (v : ℚ) : ℚ :=
  (l.countP (fun a => a < v) : ℚ) + ((l.countP (fun a => a = v) : ℚ) + 1) / 2

/-- Ranks of a sample, elementwise. -/
def ranks (l : List ℚ) : List ℚ := l.map (rankOf l)

/-- Symbolic correlation value for the requested method: Spearman is Pearson
on the ranks (`spearmanr`), anything else falls to the Pearson branch, as in
the source's `if method == "spearman" ... else  # pearson`. -/
def corrRep (method : String) (xs ys : List ℚ) : ℚ × ℚ :=
  if method = "spearman" then
    (pearsonNum (ranks xs) (ranks ys), pearsonDenSq (ranks xs) (ranks ys))
  else
    (pearsonNum xs ys, pearsonDenSq xs ys)

/-- Off-diagonal cell of `create_correlation_matrix`: pairwise deletion, 0.0
when fewer than 2 rows survive, and the NaN-guard `corr if not np.isnan(corr)
else 0.0` — NaN being exactly the case `denSq = 0` of the representation. -/
def corrCell (method : String) (ci cj : Column) : ℚ × ℚ :=
  let ps := validPairs ci.values cj.values
  let xs := ps.map Prod.fst
  let ys := ps.map Prod.snd
  if 1 < xs.length then
    let r := corrRep method xs ys
    if r.2 = 0 then (0, 1) else r
  else (0, 1)

/-- Correlation matrix of eda_dashboard.py (`create_correlation_matrix`):
`None` when the table has fewer than 2 numeric columns, otherwise the
`n × n` matrix over the numeric columns in table order, diagonal 1.0 and
off-diagonal cells computed independently per ordered pair. -/
def create_correlation_matrix (df : List Column) (method : String) :
    Option (List (List (ℚ × ℚ))) :=
  let cols := numericColumns df
  if cols.length < 2 then none
  else
    some ((List.range cols.length).map (fun i =>
      (List.range cols.length).map (fun j =>
        if i = j then (1, 1)
        else corrCell method (cols.getD i emptyColumn) (cols.getD j emptyColumn))))

/-- Descriptive statistics record of `compute_numeric_stats`; `none` models a
NaN field.  The `std` field carries the sample variance `std²` of the source
(the square root of a rational is irrational in general; squaring is a
bijection on the non-negative reals, and NaN-ness is unchanged). -/
structure StatsRec where
  mean : Option ℚ
  median : Option ℚ
  mode : Option ℚ
  std : Option ℚ
  min : Option ℚ
  max : Option ℚ
  q1 : Option ℚ
  q3 : Option ℚ
deriving DecidableEq, Repr

/-- Mean of a cleaned sample (`clean.mean()`): NaN on the empty sample. -/
def seriesMean (l : List ℚ) : Option ℚ :=
  if l.length = 0 then none else some (l.sum / (l.length : ℚ))

/-- Median of a cleaned sample (`clean.median()`): middle of the sorted
values, mean of the two middles for even length, NaN on the empty sample. -/
def seriesMedian (l : List ℚ) : Option ℚ :=
  let srt := l.insertionSort (· ≤ ·)
  let n := srt.length
  if n = 0 then none
  else if n % 2 = 1 then some (srt.getD (n / 2) 0)
  else some ((srt.getD (n / 2 - 1) 0 + srt.getD (n / 2) 0) / 2)

/-- Mode as the source uses it: `clean.mode()[0] if len(clean.mode()) > 0
else np.nan` — pandas `mode()` lists the most frequent values sorted
ascending, so index 0 is the smallest among them; empty iff the sample is
empty. -/
def seriesMode (l : List ℚ) : Option ℚ :=
  let maxCount := (l.map (fun v => l.count v)).foldr Nat.max 0
  ((l.filter (fun v => l.count v = maxCount)).insertionSort (· ≤ ·)).head?

/-- Sample variance with `ddof = 1` (pandas `clean.std()` squared): NaN when
fewer than 2 values. -/
def seriesVar (l : List ℚ) : Option ℚ :=
  if l.length < 2 then none
  else
    let m := l.sum / (l.length : ℚ)
    some ((l.map (fun v => (v - m) * (v - m))).sum / ((l.length : ℚ) - 1))

/-- Linear-interpolation quantile (pandas `clean.quantile(q)`, default
`interpolation="linear"`): NaN on the empty sample. -/
def seriesQuantile (l : List ℚ) (q : ℚ) : Option ℚ :=
  let srt := l.insertionSort (· ≤ ·)
  let n := srt.length
  if n = 0 then none
  else
    let pos := q * ((n : ℚ) - 1)
    let lo := pos.floor.toNat
    let hi := pos.ceil.toNat
    some (srt.getD lo 0 + (srt.getD hi 0 - srt.getD lo 0) * (pos - (lo : ℚ)))

/-- Descriptive statistics of `compute_numeric_stats` (eda_dashboard.py):
drop nulls, then mean/median/mode/std/min/max/q1/q3 of the cleaned sample. -/
def compute_numeric_stats (s : List (Option ℚ)) : StatsRec :=
  let clean := s.filterMap id
  { mean := seriesMean clean
    median := seriesMedian clean
    mode := seriesMode clean
    std := seriesVar clean
    min := clean.min?
    max := clean.max?
    q1 := seriesQuantile clean (1 / 4)
    q3 := seriesQuantile clean (3 / 4) }

/-- Table with a single numeric column, used to exhibit the `None` return of
the correlation matrix. -/
def dfOneNumeric : List Column :=
  [⟨"a", Dtype.number, [some 1, some 2, some 3]⟩,
   ⟨"t", Dtype.obj, [some 1, some 2, some 3]⟩]

/-- Table whose low-cardinality numeric column precedes its text column. -/
def dfOrderCex : List Column :=
  [⟨"a", Dtype.number, [some 1]⟩, ⟨"b", Dtype.obj, [some 1]⟩]

/-- Table with one numeric and one text column, for the scatter-eligibility
claims. -/
def dfScatterCex : List Column :=
  [⟨"n", Dtype.number, [some 1, some 2]⟩, ⟨"t", Dtype.obj, [none, some 1]⟩]

/-- Table for the cardinality-threshold boundary check. -/
def dfBoundary : List Column :=
  [⟨"k", Dtype.number, [some 1, some 2, some 1, none]⟩,
   ⟨"m", Dtype.number, [some 1, some 2, some 3]⟩]

/-- Numeric column with range 10 and a null row, for the size-transform
checks. -/
def sizeWitnessCol : Column := ⟨"s", Dtype.number, [some 0, none, some 10]⟩

/-- Second numeric column with a null row and two distinct values. -/
def nullRangeCol : Column := ⟨"w", Dtype.number, [some 0, none, some 10]⟩

/-- Two fully-observed numeric columns for the symmetry witness. -/
def dfCorrSym : List Column :=
  [⟨"a", Dtype.number, [some 0, some 1]⟩, ⟨"b", Dtype.number, [some 0, some 1]⟩]

/-- Correlation matrix of `dfCorrSym`. -/
def matCorrSym : List (List (ℚ × ℚ)) := [[(1, 1), (1, 1)], [(1, 1), (1, 1)]]

/-- Two numeric columns whose non-null rows are disjoint, so no row survives
pairwise deletion. -/
def dfCorrDeg : List Column :=
  [⟨"a", Dtype.number, [some 1, none]⟩, ⟨"b", Dtype.number, [none, some 2]⟩]

/-- Correlation matrix of `dfCorrDeg`. -/
def matCorrDeg : List (List (ℚ × ℚ)) := [[(1, 1), (0, 1)], [(0, 1), (1, 1)]]

/-! Helper lemmas about the embedded operations. -/

/-- Membership in the python-style dedup: an element survives iff it occurs
in the input and was not already kept. -/
theorem mem_dedupeAux {a : String} :
    ∀ (l : List String) (seen : List String),
      a ∈ dedupeAux seen l ↔ a ∈ l ∧ a ∉ seen := by
  intro l
  induction l with
  | nil => intro seen; simp [dedupeAux]
  | cons x xs ih =>
      intro seen
      by_cases hx : x ∈ seen
      · simp only [dedupeAux, if_pos hx, ih, List.mem_cons]
        by_cases hax : a = x
        · subst hax; tauto
        · tauto
      · simp only [dedupeAux, if_neg hx, List.mem_cons, ih, not_or]
        by_cases hax : a = x
        · subst hax; tauto
        · tauto

/-- Dedup preserves the set of elements. -/
theorem mem_dedupe {a : String} {l : List String} : a ∈ dedupe l ↔ a ∈ l := by
  simp [dedupe, mem_dedupeAux]

/-- Dedup output has no duplicates. -/
theorem nodup_dedupeAux : ∀ (l seen : List String), (dedupeAux seen l).Nodup := by
  intro l
  induction l with
  | nil => intro seen; simp [dedupeAux]
  | cons x xs ih =>
      intro seen
      by_cases hx : x ∈ seen
      · simpa [dedupeAux, if_pos hx] using ih seen
      · rw [dedupeAux, if_neg hx]
        refine List.nodup_cons.mpr ⟨?_, ih (x :: seen)⟩
        intro hmem
        exact ((mem_dedupeAux xs (x :: seen)).mp hmem).2 (List.mem_cons_self x seen)

/-- Dedup is the identity on duplicate-free inputs disjoint from `seen`. -/
theorem dedupeAux_eq_self :
    ∀ (l seen : List String), l.Nodup → (∀ x ∈ l, x ∉ seen) → dedupeAux seen l = l := by
  intro l
  induction l with
  | nil => intro seen _ _; rfl
  | cons x xs ih =>
      intro seen hnd hdisj
      have hx : x ∉ seen := hdisj x (List.mem_cons_self x xs)
      rw [dedupeAux, if_neg hx]
      congr 1
      refine ih (x :: seen) (List.nodup_cons.mp hnd).2 ?_
      intro y hy
      simp only [List.mem_cons, not_or]
      exact ⟨fun h => (List.nodup_cons.mp hnd).1 (h ▸ hy), hdisj y (List.mem_cons_of_mem _ hy)⟩

/-- Dedup is the identity on duplicate-free inputs. -/
theorem dedupe_eq_self {l : List String} (h : l.Nodup) : dedupe l = l :=
  dedupeAux_eq_self l [] h (by simp)

/-- With duplicate-free column names, a member of the filtered name list
corresponds to the member column itself. -/
theorem mem_map_name_filter {df : List Column} {c : Column} {p : Column → Bool}
    (hnd : (df.map Column.name).Nodup) (hc : c ∈ df) :
    c.name ∈ (df.filter p).map Column.name ↔ p c = true := by
  simp only [List.mem_map, List.mem_filter]
  constructor
  · rintro ⟨c', ⟨hc', hp⟩, hname⟩
    have : c' = c := List.inj_on_of_nodup_map hnd hc' hc hname
    exact this ▸ hp
  · intro hp
    exact ⟨c, ⟨hc, hp⟩, rfl⟩

/-- With duplicate-free column names, the pandas lookup of a member column's
name returns that column. -/
theorem lookupCol_eq_self {df : List Column} {c : Column}
    (hnd : (df.map Column.name).Nodup) (hc : c ∈ df) :
    lookupCol df c.name = some c := by
  unfold lookupCol
  cases hfind : df.find? (fun x => x.name = c.name) with
  | none =>
      exfalso
      have := List.find?_eq_none.mp hfind c hc
      simp at this
  | some c' =>
      have hmem : c' ∈ df := List.mem_of_find?_eq_some hfind
      have hname : c'.name = c.name := by
        have := List.find?_some hfind
        simpa using this
      exact congrArg some (List.inj_on_of_nodup_map hnd hmem hc hname)

/-- Size transform on a non-numeric column: constant 10 everywhere. -/
theorem size_transform_of_not_numeric {c : Column} (h : is_numeric_series c = false) :
    size_transform c = c.values.map (fun _ => some 10) := by
  simp [size_transform, h]

/-- Size transform on a numeric column with non-zero range: the linear
rescale, which keeps null cells null. -/
theorem size_transform_of_range_ne {c : Column} {mx mn : ℚ}
    (h : is_numeric_series c = true) (hmx : seriesMax c.values = some mx)
    (hmn : seriesMin c.values = some mn) (hne : mx - mn ≠ 0) :
    size_transform c =
      c.values.map (Option.map (fun v => 5 + ((v - mn) / (mx - mn)) * 20)) := by
  simp [size_transform, h, hmx, hmn, hne]

/-- Size transform when the range is undefined (no non-null value at all):
constant 10 everywhere. -/
theorem size_transform_of_no_range {c : Column} (hmx : seriesMax c.values = none) :
    size_transform c = c.values.map (fun _ => some 10) := by
  by_cases h : is_numeric_series c
  · simp [size_transform, h, hmx]
  · simp [size_transform, h]

/-- Size transform on a numeric column with zero range: constant 10
everywhere instead of a division by zero. -/
theorem size_transform_of_zero_range {c : Column} {mx mn : ℚ}
    (h : is_numeric_series c = true) (hmx : seriesMax c.values = some mx)
    (hmn : seriesMin c.values = some mn) (heq : mx - mn = 0) :
    size_transform c = c.values.map (fun _ => some 10) := by
  simp [size_transform, h, hmx, hmn, heq]

/-- Minimum bound of the non-null values. -/
theorem min?_le_of_mem {l : List ℚ} {a b : ℚ} (h : l.min? = some a) (hb : b ∈ l) :
    a ≤ b :=
  ((List.le_min?_iff (fun _ _ _ => le_min_iff) h).mp (le_refl a)) b hb

/-- Maximum bound of the non-null values. -/
theorem le_max?_of_mem {l : List ℚ} {a b : ℚ} (h : l.max? = some a) (hb : b ∈ l) :
    b ≤ a :=
  ((List.max?_le_iff (fun _ _ _ => max_le_iff) h).mp (le_refl a)) b hb

/-! Claim theorems. -/

/-- C2 counterexample: on a table whose numeric subset has exactly one
column, `create_correlation_matrix` returns the non-error value `None`
instead of failing with a typed `InsufficientDataError`. -/
theorem corr_matrix_none_counterexample :
    create_correlation_matrix dfOneNumeric "pearson" = none := rfl

/-- C2 amended: when the numeric-column subset has fewer than 2 columns,
`create_correlation_matrix` returns `None` (a non-error sentinel the caller
checks for), and it returns a matrix otherwise. -/
theorem corr_matrix_none_iff (df : List Column) (method : String) :
    create_correlation_matrix df method = none ↔ (numericColumns df).length < 2 := by
  unfold create_correlation_matrix
  dsimp only
  split
  · simp_all
  · simp_all

/-- C7: whenever the table or the chart kind changes, the recomputed
selections set x and y to the first entry of their eligible option lists
(`None` when empty) and reset color and size to `None`, never carrying over
prior selections. -/
theorem default_selection_reset (df : List Column) (plot_type : String) :
    (update_column_options df plot_type).x_val =
      (update_column_options df plot_type).x_opts.head? ∧
    (update_column_options df plot_type).y_val =
      (update_column_options df plot_type).y_opts.head? ∧
    (update_column_options df plot_type).color_val = none ∧
    (update_column_options df plot_type).size_val = none :=
  ⟨rfl, rfl, rfl, rfl⟩

/-- C8 counterexample: for the scatter kind the builder's size alternative
list (`make_buttons_for_attr` with `size_transform`) offers the non-numeric
column "t", so it is not exactly the numeric columns. -/
theorem scatter_eligibility_counterexample :
    (make_buttons_for_attr dfScatterCex size_transform).map Button.label = ["n", "t"] ∧
    (numericColumns dfScatterCex).map Column.name = ["n"] :=
  ⟨rfl, rfl⟩

/-- C8 amended: for the scatter kind the host's selector options for x, y
and size are exactly the numeric columns and color offers all columns, while
the builder's per-dimension alternative lists offer every column of the
table for each dimension. -/
theorem scatter_eligibility_amended (df : List Column)
    (transform : Column → List (Option ℚ)) :
    (eligible_options df "scatter").x_opts = (numericColumns df).map Column.name ∧
    (eligible_options df "scatter").y_opts = (numericColumns df).map Column.name ∧
    (eligible_options df "scatter").size_opts = (numericColumns df).map Column.name ∧
    (eligible_options df "scatter").color_opts = df.map Column.name ∧
    (make_buttons_for_attr df transform).map Button.label = df.map Column.name := by
  refine ⟨rfl, rfl, rfl, rfl, ?_⟩
  simp [make_buttons_for_attr]

/-- C6: the size transform maps a non-numeric column to the constant size 10
on every row; a numeric column with `max ≠ min` is rescaled elementwise by
`5 + 20 * (v − min) / (max − min)`; and when the range is zero or undefined
(no non-null value) it falls back to the constant size on every row instead
of dividing by zero. -/
theorem size_transform_spec (c : Column) :
    (is_numeric_series c = false →
      size_transform c = c.values.map (fun _ => some 10)) ∧
    (∀ mx mn : ℚ, is_numeric_series c = true → seriesMax c.values = some mx →
      seriesMin c.values = some mn → mx - mn ≠ 0 →
      size_transform c =
        c.values.map (Option.map (fun v => 5 + ((v - mn) / (mx - mn)) * 20))) ∧
    (seriesMax c.values = none →
      size_transform c = c.values.map (fun _ => some 10)) ∧
    (∀ mx mn : ℚ, is_numeric_series c = true → seriesMax c.values = some mx →
      seriesMin c.values = some mn → mx - mn = 0 →
      size_transform c = c.values.map (fun _ => some 10)) :=
  ⟨fun h => size_transform_of_not_numeric h,
   fun _ _ h hmx hmn hne => size_transform_of_range_ne h hmx hmn hne,
   fun hmx => size_transform_of_no_range hmx,
   fun _ _ h hmx hmn heq => size_transform_of_zero_range h hmx hmn heq⟩

/-- C10: on a numeric column holding at least two distinct non-null values,
the size transform keeps every null row NaN (`none`) rather than giving it
the constant fallback size, while every non-null row receives a size in
`[5, 25]`, the column minimum mapping to 5 and the maximum to 25. -/
theorem size_transform_null_rows (c : Column) (mn mx a b : ℚ)
    (hnum : is_numeric_series c = true)
    (ha : some a ∈ c.values) (hb : some b ∈ c.values) (hab : a ≠ b)
    (hmn : seriesMin c.values = some mn) (hmx : seriesMax c.values = some mx) :
    (∀ i : Nat, c.values.getD i none = none →
      (size_transform c).getD i none = none) ∧
    (∀ (i : Nat) (x : ℚ), c.values.getD i none = some x →
      ∃ s : ℚ, (size_transform c).getD i none = some s ∧ 5 ≤ s ∧ s ≤ 25 ∧
        (x = mn → s = 5) ∧ (x = mx → s = 25)) := by
  have hmem : ∀ y : ℚ, some y ∈ c.values → y ∈ c.values.filterMap id := by
    intro y hy
    exact List.mem_filterMap.mpr ⟨some y, hy, rfl⟩
  have hbound : ∀ y : ℚ, some y ∈ c.values → mn ≤ y ∧ y ≤ mx := by
    intro y hy
    exact ⟨min?_le_of_mem hmn (hmem y hy), le_max?_of_mem hmx (hmem y hy)⟩
  have hlt : mn < mx := by
    rcases hbound a ha with ⟨ha1, ha2⟩
    rcases hbound b hb with ⟨hb1, hb2⟩
    rcases lt_or_eq_of_le (le_trans ha1 ha2) with h | h
    · exact h
    · exfalso; apply hab; linarith
  have hne : mx - mn ≠ 0 := sub_ne_zero.mpr (ne_of_gt hlt)
  have heq : size_transform c =
      c.values.map (Option.map (fun v => 5 + ((v - mn) / (mx - mn)) * 20)) :=
    size_transform_of_range_ne hnum hmx hmn hne
  refine ⟨?_, ?_⟩
  · intro i hi
    rw [heq, List.getD_eq_getElem?_getD, List.getElem?_map]
    rw [List.getD_eq_getElem?_getD] at hi
    cases hq : c.values[i]? with
    | none => simp [hq]
    | some o =>
        rw [hq] at hi
        simp only [Option.getD_some] at hi
        simp [hq, hi]
  · intro i x hx
    rw [List.getD_eq_getElem?_getD] at hx
    cases hq : c.values[i]? with
    | none => rw [hq] at hx; simp at hx
    | some o =>
        rw [hq] at hx
        simp only [Option.getD_some] at hx
        subst hx
        have hxmem : some x ∈ c.values := List.getElem?_mem hq
        rcases hbound x hxmem with ⟨hx1, hx2⟩
        have hd : (0 : ℚ) < mx - mn := sub_pos.mpr hlt
        refine ⟨5 + ((x - mn) / (mx - mn)) * 20, ?_, ?_, ?_, ?_, ?_⟩
        · rw [heq, List.getD_eq_getElem?_getD, List.getElem?_map, hq]
          rfl
        · have h0 : 0 ≤ (x - mn) / (mx - mn) :=
            div_nonneg (sub_nonneg.mpr hx1) (le_of_lt hd)
          nlinarith
        · have h1 : (x - mn) / (mx - mn) ≤ 1 := by
            rw [div_le_one hd]
            linarith
          nlinarith
        · intro hxeq
          subst hxeq
          simp
        · intro hxeq
          subst hxeq
          rw [div_self hne]
          norm_num

/-- C9: `compute_numeric_stats` on an all-null column returns the record in
which every field is NaN (here `none`) rather than zero, and raises no
error. -/
theorem all_null_stats_nan (s : List (Option ℚ)) (h : ∀ v ∈ s, v = none) :
    compute_numeric_stats s = ⟨none, none, none, none, none, none, none, none⟩ := by
  have hc : s.filterMap id = [] := List.filterMap_eq_nil_iff.mpr h
  simp only [compute_numeric_stats, hc]
  rfl

/-- C3: classification marks a column numeric iff its dtype is numeric, and
categorical iff its dtype is object/category/boolean or it is numeric with
at most `cat_threshold` distinct non-null values (nulls ignored).  In
particular a numeric column with exactly `cat_threshold` distinct non-null
values is categorical and one with `cat_threshold + 1` is not. -/
theorem infer_types_role_spec (df : List Column) (t : Nat) (c : Column)
    (hnd : (df.map Column.name).Nodup) (hc : c ∈ df) :
    (c.name ∈ (infer_column_types df t).1 ↔ c.dtype = Dtype.number) ∧
    (c.name ∈ (infer_column_types df t).2 ↔
      (isCatDtype c.dtype = true ∨ (c.dtype = Dtype.number ∧ nunique c ≤ t))) := by
  have hnum : c.name ∈ (infer_column_types df t).1 ↔ c.dtype = Dtype.number := by
    show c.name ∈ (df.filter (fun x => x.dtype = Dtype.number)).map Column.name ↔ _
    rw [mem_map_name_filter hnd hc]
    simp
  refine ⟨hnum, ?_⟩
  show c.name ∈ dedupe (((df.filter (fun x => isCatDtype x.dtype)).map Column.name) ++
      ((numericColumns df).map Column.name).filter
        (fun n => nuniqueName df n ≤ t)) ↔ _
  rw [mem_dedupe, List.mem_append, mem_map_name_filter hnd hc, List.mem_filter]
  have hlook : nuniqueName df c.name = nunique c := by
    unfold nuniqueName
    rw [lookupCol_eq_self hnd hc]
  constructor
  · rintro (h | ⟨h1, h2⟩)
    · exact Or.inl h
    · refine Or.inr ⟨hnum.mp h1, ?_⟩
      rw [hlook] at h2
      exact of_decide_eq_true h2
  · rintro (h | ⟨h1, h2⟩)
    · exact Or.inl h
    · refine Or.inr ⟨hnum.mpr h1, ?_⟩
      rw [hlook]
      exact decide_eq_true h2

/-- C4 counterexample: on a table whose low-cardinality numeric column "a"
precedes its text column "b", the categorical role list is ["b", "a"],
which does not preserve the table's column order ["a", "b"]. -/
theorem infer_types_order_counterexample :
    (infer_column_types dfOrderCex 20).2 = ["b", "a"] ∧
    dfOrderCex.map Column.name = ["a", "b"] ∧
    ¬ (infer_column_types dfOrderCex 20).2.Sublist (dfOrderCex.map Column.name) := by
  refine ⟨rfl, rfl, ?_⟩
  intro h
  have h2 : (infer_column_types dfOrderCex 20).2 = ["b", "a"] := rfl
  rw [h2] at h
  exact absurd h (by decide)

/-- C4 amended: both role lists are duplicate-free and the numeric list
preserves the table's column order; the categorical list is the
object/category/boolean columns in table order followed by the
low-cardinality numeric columns in table order (each block order-preserving
on its own), so a low-cardinality numeric column placed before a declared
categorical column in the table appears after it in the categorical list. -/
theorem infer_types_order_amended (df : List Column) (t : Nat)
    (hnd : (df.map Column.name).Nodup) :
    (infer_column_types df t).1.Sublist (df.map Column.name) ∧
    (infer_column_types df t).1.Nodup ∧
    (infer_column_types df t).2.Nodup ∧
    (infer_column_types df t).2 =
      ((df.filter (fun c => isCatDtype c.dtype)).map Column.name) ++
      (((numericColumns df).map Column.name).filter
        (fun n => nuniqueName df n ≤ t)) ∧
    ((df.filter (fun c => isCatDtype c.dtype)).map Column.name).Sublist
      (df.map Column.name) ∧
    (((numericColumns df).map Column.name).filter
      (fun n => nuniqueName df n ≤ t)).Sublist (df.map Column.name) := by
  have hsub1 : (infer_column_types df t).1.Sublist (df.map Column.name) :=
    List.Sublist.map Column.name (List.filter_sublist df)
  have hsubCat : ((df.filter (fun c => isCatDtype c.dtype)).map Column.name).Sublist
      (df.map Column.name) :=
    List.Sublist.map Column.name (List.filter_sublist df)
  have hsubLow : (((numericColumns df).map Column.name).filter
      (fun n => nuniqueName df n ≤ t)).Sublist (df.map Column.name) :=
    List.Sublist.trans (List.filter_sublist _) hsub1
  have hnd1 : (infer_column_types df t).1.Nodup := hsub1.nodup hnd
  have hndCat : ((df.filter (fun c => isCatDtype c.dtype)).map Column.name).Nodup :=
    hsubCat.nodup hnd
  have hndLow : (((numericColumns df).map Column.name).filter
      (fun n => nuniqueName df n ≤ t)).Nodup := hsubLow.nodup hnd
  have hdisj : ((df.filter (fun c => isCatDtype c.dtype)).map Column.name).Disjoint
      (((numericColumns df).map Column.name).filter (fun n => nuniqueName df n ≤ t)) := by
    intro n hn1 hn2
    have hn2m : n ∈ (numericColumns df).map Column.name := List.mem_filter.mp hn2 |>.1
    rcases List.mem_map.mp hn1 with ⟨c1, hc1m, hc1n⟩
    rcases List.mem_map.mp hn2m with ⟨c2, hc2m, hc2n⟩
    have hc1 : c1 ∈ df := (List.filter_sublist df).subset hc1m
    have hc2 : c2 ∈ df := (List.filter_sublist df).subset hc2m
    have : c1 = c2 :=
      List.inj_on_of_nodup_map hnd hc1 hc2 (hc1n.trans hc2n.symm)
    have hcat : isCatDtype c1.dtype = true := (List.mem_filter.mp hc1m).2
    have hnumt : c2.dtype = Dtype.number := by
      have := (List.mem_filter.mp hc2m).2
      simpa using this
    rw [this, hnumt] at hcat
    simp [isCatDtype] at hcat
  have hstruct : (infer_column_types df t).2 =
      ((df.filter (fun c => isCatDtype c.dtype)).map Column.name) ++
      (((numericColumns df).map Column.name).filter
        (fun n => nuniqueName df n ≤ t)) := by
    show dedupe _ = _
    exact dedupe_eq_self (List.Nodup.append hndCat hndLow hdisj)
  refine ⟨hsub1, hnd1, ?_, hstruct, hsubCat, hsubLow⟩
  rw [hstruct]
  exact List.Nodup.append hndCat hndLow hdisj

/-- Swapping the two columns swaps each surviving pair: the pairwise
non-null mask is the same row set. -/
theorem validPairs_swap :
    ∀ a b : List (Option ℚ), validPairs b a = (validPairs a b).map Prod.swap := by
  intro a
  induction a with
  | nil => intro b; cases b <;> rfl
  | cons x xs ih =>
      intro b
      cases b with
      | nil => rfl
      | cons y ys =>
          cases x with
          | none => cases y <;> simpa [validPairs] using ih ys
          | some q =>
              cases y with
              | none => simpa [validPairs] using ih ys
              | some r => simpa [validPairs] using ih ys

/-- Pearson numerator is symmetric in its two equal-length samples. -/
theorem pearsonNum_comm {xs ys : List ℚ} (h : xs.length = ys.length) :
    pearsonNum ys xs = pearsonNum xs ys := by
  unfold pearsonNum
  rw [List.zipWith_comm_of_comm (fun a b => a * b) (fun a b => mul_comm a b) ys xs, h]
  ring

/-- Squared Pearson denominator is symmetric. -/
theorem pearsonDenSq_comm (xs ys : List ℚ) :
    pearsonDenSq ys xs = pearsonDenSq xs ys :=
  mul_comm _ _

/-- Symbolic correlation is symmetric in its two equal-length samples for
every method string. -/
theorem corrRep_comm (method : String) {xs ys : List ℚ}
    (h : xs.length = ys.length) :
    corrRep method ys xs = corrRep method xs ys := by
  unfold corrRep
  have hr : (ranks xs).length = (ranks ys).length := by
    simp [ranks, h]
  split
  · rw [pearsonNum_comm hr, pearsonDenSq_comm]
  · rw [pearsonNum_comm h, pearsonDenSq_comm]

/-- Off-diagonal correlation cells are symmetric: the pairwise mask for
(i, j) and (j, i) selects the same rows, and the statistic is symmetric. -/
theorem corrCell_comm (method : String) (ci cj : Column) :
    corrCell method cj ci = corrCell method ci cj := by
  unfold corrCell
  dsimp only
  rw [validPairs_swap ci.values cj.values]
  have hfst : ((validPairs ci.values cj.values).map Prod.swap).map Prod.fst =
      (validPairs ci.values cj.values).map Prod.snd := by
    rw [List.map_map]; rfl
  have hsnd : ((validPairs ci.values cj.values).map Prod.swap).map Prod.snd =
      (validPairs ci.values cj.values).map Prod.fst := by
    rw [List.map_map]; rfl
  rw [hfst, hsnd]
  have hlen : ((validPairs ci.values cj.values).map Prod.fst).length =
      ((validPairs ci.values cj.values).map Prod.snd).length := by
    simp
  have hlens : ((validPairs ci.values cj.values).map Prod.snd).length =
      ((validPairs ci.values cj.values).map Prod.fst).length := by
    simp
  rw [corrRep_comm method hlens]
  simp only [List.length_map]

/-- Entry of the matrix built by mapping over `List.range`. -/
theorem getD_map_range {α : Type} (n : Nat) (f : Nat → α) (d : α) (i : Nat)
    (hi : i < n) : ((List.range n).map f).getD i d = f i := by
  rw [List.getD_eq_getElem?_getD, List.getElem?_map, List.getElem?_range hi]
  rfl

/-- Matrix returned for a table with at least two numeric columns. -/
theorem create_correlation_matrix_eq {df : List Column} {method : String}
    {M : List (List (ℚ × ℚ))} (h : create_correlation_matrix df method = some M) :
    M = (List.range (numericColumns df).length).map (fun i =>
      (List.range (numericColumns df).length).map (fun j =>
        if i = j then (1, 1)
        else corrCell method ((numericColumns df).getD i emptyColumn)
          ((numericColumns df).getD j emptyColumn))) := by
  unfold create_correlation_matrix at h
  dsimp only at h
  split at h
  · exact absurd h (by simp)
  · exact (Option.some_inj.mp h).symm

/-- C1: the correlation matrix is exactly symmetric for every table and both
methods, although each ordered cell is computed independently: the pairwise
non-null mask of (i, j) and (j, i) is identical and the statistic is
symmetric in its arguments. -/
theorem corr_matrix_symmetric (df : List Column) (method : String)
    (M : List (List (ℚ × ℚ)))
    (h : create_correlation_matrix df method = some M)
    (i j : Nat) (hi : i < (numericColumns df).length)
    (hj : j < (numericColumns df).length) :
    (M.getD i []).getD j (0, 0) = (M.getD j []).getD i (0, 0) := by
  rw [create_correlation_matrix_eq h]
  rw [getD_map_range _ _ _ _ hi, getD_map_range _ _ _ _ hj,
    getD_map_range _ _ _ _ hj, getD_map_range _ _ _ _ hi]
  by_cases hij : i = j
  · simp [hij]
  · rw [if_neg hij, if_neg (fun hji => hij hji.symm)]
    exact (corrCell_comm method _ _).symm

/-- Cell value when fewer than 2 rows survive pairwise deletion. -/
theorem corrCell_eq_zero_of_short {method : String} {ci cj : Column}
    (h : (validPairs ci.values cj.values).length < 2) :
    corrCell method ci cj = (0, 1) := by
  unfold corrCell
  dsimp only
  rw [if_neg]
  simp only [List.length_map]
  omega

/-- Cell value when the statistic over the surviving rows is NaN (zero
squared denominator). -/
theorem corrCell_eq_zero_of_denSq {method : String} {ci cj : Column}
    (h : (corrRep method ((validPairs ci.values cj.values).map Prod.fst)
      ((validPairs ci.values cj.values).map Prod.snd)).2 = 0) :
    corrCell method ci cj = (0, 1) := by
  unfold corrCell
  dsimp only
  by_cases hlen : 1 < ((validPairs ci.values cj.values).map Prod.fst).length
  · rw [if_pos hlen, if_pos h]
  · rw [if_neg hlen]

/-- The stored cell never represents NaN: its squared denominator is never
0 (the literal 0.0 cells are represented with denominator 1). -/
theorem corrCell_snd_ne_zero (method : String) (ci cj : Column) :
    (corrCell method ci cj).2 ≠ 0 := by
  unfold corrCell
  dsimp only
  split
  · split
    · simp
    · next hne => exact hne
  · simp

/-- C5: for every off-diagonal pair of numeric columns, if fewer than 2 rows
survive pairwise deletion the stored cell is exactly 0.0; if the statistic
over the surviving rows is NaN (zero variance, i.e. zero squared
denominator) the stored cell is also 0.0; and the stored cell is never NaN
(its squared denominator is never 0). -/
theorem corr_matrix_degenerate (df : List Column) (method : String)
    (M : List (List (ℚ × ℚ)))
    (h : create_correlation_matrix df method = some M)
    (i j : Nat) (hi : i < (numericColumns df).length)
    (hj : j < (numericColumns df).length) (hij : i ≠ j) :
    ((validPairs ((numericColumns df).getD i emptyColumn).values
        ((numericColumns df).getD j emptyColumn).values).length < 2 →
      (M.getD i []).getD j (0, 0) = (0, 1)) ∧
    ((corrRep method
        ((validPairs ((numericColumns df).getD i emptyColumn).values
          ((numericColumns df).getD j emptyColumn).values).map Prod.fst)
        ((validPairs ((numericColumns df).getD i emptyColumn).values
          ((numericColumns df).getD j emptyColumn).values).map Prod.snd)).2 = 0 →
      (M.getD i []).getD j (0, 0) = (0, 1)) ∧
    ((M.getD i []).getD j (0, 0)).2 ≠ 0 := by
  rw [create_correlation_matrix_eq h]
  rw [getD_map_range _ _ _ _ hi, getD_map_range _ _ _ _ hj, if_neg hij]
  exact ⟨fun hlt => corrCell_eq_zero_of_short hlt,
    fun hz => corrCell_eq_zero_of_denSq hz,
    corrCell_snd_ne_zero method _ _⟩

set_option allowUnsafeReducibility true

section RatEval

attribute [local semireducible] Rat.add Rat.mul Rat.sub Rat.inv Rat.div

/-- Witness for C1: on a concrete two-column table the matrix evaluates to an
explicit value and its off-diagonal cells coincide. -/
theorem corr_matrix_symmetric_witness :
    create_correlation_matrix dfCorrSym "pearson" = some matCorrSym ∧
    0 < (numericColumns dfCorrSym).length ∧
    1 < (numericColumns dfCorrSym).length ∧
    (matCorrSym.getD 0 []).getD 1 (0, 0) = (matCorrSym.getD 1 []).getD 0 (0, 0) :=
  ⟨by decide, by decide, by decide,
    corr_matrix_symmetric dfCorrSym "pearson" matCorrSym (by decide) 0 1
      (by decide) (by decide)⟩

/-- Witness for C5: with disjoint non-null rows no pair survives and the
stored off-diagonal cell is the represented 0.0, not NaN. -/
theorem corr_matrix_degenerate_witness :
    create_correlation_matrix dfCorrDeg "pearson" = some matCorrDeg ∧
    (validPairs ((numericColumns dfCorrDeg).getD 0 emptyColumn).values
      ((numericColumns dfCorrDeg).getD 1 emptyColumn).values).length < 2 ∧
    (matCorrDeg.getD 0 []).getD 1 (0, 0) = (0, 1) ∧
    ((matCorrDeg.getD 0 []).getD 1 (0, 0)).2 ≠ 0 :=
  ⟨by decide, by decide,
    (corr_matrix_degenerate dfCorrDeg "pearson" matCorrDeg (by decide) 0 1
      (by decide) (by decide) (by decide)).1 (by decide),
    (corr_matrix_degenerate dfCorrDeg "pearson" matCorrDeg (by decide) 0 1
      (by decide) (by decide) (by decide)).2.2⟩

/-- Witness for C3 at the threshold boundary: column "k" has exactly 2
distinct non-null values and lands in both roles for threshold 2, while "m"
with 3 distinct values stays numeric only. -/
theorem infer_types_role_spec_witness :
    (dfBoundary.map Column.name).Nodup ∧
    (⟨"m", Dtype.number, [some 1, some 2, some 3]⟩ : Column) ∈ dfBoundary ∧
    (("m" ∈ (infer_column_types dfBoundary 2).1 ↔
        (⟨"m", Dtype.number, [some 1, some 2, some 3]⟩ : Column).dtype = Dtype.number) ∧
     ("m" ∈ (infer_column_types dfBoundary 2).2 ↔
        (isCatDtype (⟨"m", Dtype.number, [some 1, some 2, some 3]⟩ : Column).dtype = true ∨
         ((⟨"m", Dtype.number, [some 1, some 2, some 3]⟩ : Column).dtype = Dtype.number ∧
          nunique ⟨"m", Dtype.number, [some 1, some 2, some 3]⟩ ≤ 2)))) :=
  ⟨by decide, by decide,
    infer_types_role_spec dfBoundary 2 ⟨"m", Dtype.number, [some 1, some 2, some 3]⟩
      (by decide) (by decide)⟩

/-- Witness for the amended C4 on a concrete table. -/
theorem infer_types_order_amended_witness :
    (dfOrderCex.map Column.name).Nodup ∧
    (infer_column_types dfOrderCex 20).1.Sublist (dfOrderCex.map Column.name) ∧
    (infer_column_types dfOrderCex 20).2.Nodup :=
  ⟨by decide, (infer_types_order_amended dfOrderCex 20 (by decide)).1,
    (infer_types_order_amended dfOrderCex 20 (by decide)).2.2.1⟩

/-- Witness for C6 on a numeric column with range 10. -/
theorem size_transform_spec_witness :
    is_numeric_series sizeWitnessCol = true ∧
    seriesMax sizeWitnessCol.values = some 10 ∧
    seriesMin sizeWitnessCol.values = some 0 ∧
    (10 : ℚ) - 0 ≠ 0 ∧
    size_transform sizeWitnessCol =
      sizeWitnessCol.values.map (Option.map (fun v => 5 + ((v - 0) / (10 - 0)) * 20)) :=
  ⟨rfl, by decide, by decide, by decide,
    (size_transform_spec sizeWitnessCol).2.1 10 0 rfl (by decide) (by decide)
      (by decide)⟩

/-- Witness for C9 on a two-row all-null column. -/
theorem all_null_stats_nan_witness :
    (∀ v ∈ ([none, none] : List (Option ℚ)), v = none) ∧
    compute_numeric_stats [none, none] =
      ⟨none, none, none, none, none, none, none, none⟩ :=
  ⟨by decide, all_null_stats_nan [none, none] (by decide)⟩

/-- Witness for C10: the null row stays NaN and the non-null rows land in
the visual range, the maximum at 25. -/
theorem size_transform_null_rows_witness :
    nullRangeCol.values.getD 1 none = none ∧
    (size_transform nullRangeCol).getD 1 none = none ∧
    (∃ s : ℚ, (size_transform nullRangeCol).getD 2 none = some s ∧ 5 ≤ s ∧ s ≤ 25 ∧
      ((10 : ℚ) = 0 → s = 5) ∧ ((10 : ℚ) = 10 → s = 25)) :=
  ⟨by decide,
    (size_transform_null_rows nullRangeCol 0 10 0 10 rfl (by decide) (by decide)
      (by decide) (by decide) (by decide)).1 1 (by decide),
    (size_transform_null_rows nullRangeCol 0 10 0 10 rfl (by decide) (by decide)
      (by decide) (by decide) (by decide)).2 2 10 (by decide)⟩

end RatEval

end DataViz
